import Mathlib

/-!
Verification development for the rag_upload_chat repository.

The Python source is shallowly embedded: each external collaborator
(rasterizer + page OCR adapter, the LLM, the vector store, the chat
engine) is abstracted as an explicit oracle parameter, and the control
flow of the repository functions is translated statement by statement.

  app/ocr_service.py  : get_text_from_pdf (via collectFrom)
  app/rag_pipeline.py : extract_metadata_from_text, index_pdf,
                        get_query_engine (via rerank / query_engine_query)
  app/main.py         : query_endpoint, chat_endpoint, chat_histories
-/

/-- A metadata value: the repository stores strings (doc_type, category,
status, title, file_name) and integers (page_number) in its metadata
mappings. -/
inductive MVal where
  | str (s : String)
  | nat (n : Nat)
deriving DecidableEq, Repr

/-- A Python dict with string keys, embedded as an association list in
which an update conses the new binding in front; `dlookup` observes the
most recent binding for a key, matching dict lookup semantics. -/
abbrev MDict : Type := List (String × MVal)

/-- Lookup of a key in an embedded dict: the most recent binding wins. -/
def dlookup (d : MDict) (k : String) : Option MVal :=
  match d with
  | [] => none
  | (k2, v) :: rest => if k2 = k then some v else dlookup rest k

/-- dict.update with a single key: the new binding shadows any old one. -/
def dinsert (d : MDict) (k : String) (v : MVal) : MDict :=
  (k, v) :: d

/-- One element of the list returned by get_text_from_pdf
(ocr_service.py lines 97-100): a dict with keys page_number and text. -/
structure PageRecord where
  page_number : Nat
  text : String
deriving DecidableEq, Repr

/-- The loop of get_text_from_pdf (ocr_service.py lines 85-100): walk the
page images in order, with page_num starting at 1 and incremented per
page; the OCR adapter result for each page is the corresponding entry of
the oracle list (the empty string is the adapter failure signal,
ocr_service.py lines 61 and 64); only pages whose text is non-empty are
appended (line 96). -/
def collectFrom : Nat → List String → List PageRecord
  | _, [] => []
  | pn, t :: ts =>
      if t = "" then collectFrom (pn + 1) ts
      else ⟨pn, t⟩ :: collectFrom (pn + 1) ts

/-- get_text_from_pdf (ocr_service.py lines 68-113).  The oracle
`rasterOcr` combines the rasterizer with the page OCR adapter: `none`
means convert_from_bytes raised (lines 80-82, return []); `some ts`
means rasterization produced one page image per entry of `ts`, and the
OCR adapter returned text `ts[i]` for page i (the adapter never raises;
it returns the empty string on any failure).  After the loop, the
completeness check of lines 107-109 rejects the whole document when the
number of collected pages differs from the number of page images. -/
def get_text_from_pdf (rasterOcr : Option (List String)) : List PageRecord :=
  match rasterOcr with
  | none => []
  | some ts =>
      let pages_data := collectFrom 1 ts
      if pages_data.length ≠ ts.length then [] else pages_data

/-- Specification-side description of a fully successful OCR run: one
record per page image, numbered 1, 2, ..., N in order, carrying that
OCR text of that page. -/
def numberedFrom : Nat → List String → List PageRecord
  | _, [] => []
  | pn, t :: ts => ⟨pn, t⟩ :: numberedFrom (pn + 1) ts

/-- Specification-side description: page numbers start at 1. -/
def numberedPages (ts : List String) : List PageRecord :=
  numberedFrom 1 ts

-- ---------------------------------------------------------------------
-- Lemmas about the OCR orchestrator
-- ---------------------------------------------------------------------

theorem collectFrom_length_le (pn : Nat) (ts : List String) :
    (collectFrom pn ts).length ≤ ts.length := by
  induction ts generalizing pn with
  | nil => simp [collectFrom]
  | cons t ts ih =>
      by_cases h : t = "" <;> simp [collectFrom, h]
      · exact Nat.le_succ_of_le (ih (pn + 1))
      · exact ih (pn + 1)

theorem collectFrom_length_lt (pn : Nat) (ts : List String)
    (h : "" ∈ ts) : (collectFrom pn ts).length < ts.length := by
  induction ts generalizing pn with
  | nil => cases h
  | cons t ts ih =>
      by_cases ht : t = ""
      · simp only [collectFrom, if_pos ht, List.length_cons]
        exact Nat.lt_succ_of_le (collectFrom_length_le (pn + 1) ts)
      · have hmem : "" ∈ ts := by
          cases h with
          | head => exact absurd rfl ht
          | tail _ h2 => exact h2
        simp only [collectFrom, if_neg ht, List.length_cons]
        exact Nat.succ_lt_succ (ih (pn + 1) hmem)

theorem collectFrom_all_nonempty (pn : Nat) (ts : List String)
    (h : ∀ t ∈ ts, t ≠ "") : collectFrom pn ts = numberedFrom pn ts := by
  induction ts generalizing pn with
  | nil => rfl
  | cons t ts ih =>
      have ht : t ≠ "" := h t (List.mem_cons_self t ts)
      simp only [collectFrom, numberedFrom, if_neg ht]
      exact congrArg _ (ih (pn + 1) (fun u hu => h u (List.mem_cons_of_mem t hu)))

theorem numberedFrom_length (pn : Nat) (ts : List String) :
    (numberedFrom pn ts).length = ts.length := by
  induction ts generalizing pn with
  | nil => rfl
  | cons t ts ih => simp [numberedFrom, ih (pn + 1)]

theorem collectFrom_text_nonempty (pn : Nat) (ts : List String) :
    (collectFrom pn ts).all (fun r => decide (r.text ≠ "")) = true := by
  induction ts generalizing pn with
  | nil => rfl
  | cons t ts ih =>
      by_cases h : t = "" <;> simp [collectFrom, h] <;> exact fun r hr => by
        have := List.all_eq_true.mp (ih (pn + 1)) r hr
        simpa using this

theorem get_text_text_nonempty (rasterOcr : Option (List String)) :
    (get_text_from_pdf rasterOcr).all (fun r => decide (r.text ≠ "")) = true := by
  cases rasterOcr with
  | none => rfl
  | some ts =>
      simp only [get_text_from_pdf]
      by_cases h : (collectFrom 1 ts).length ≠ ts.length
      · simp [h]
      · simpa [h] using collectFrom_text_nonempty 1 ts

theorem get_text_head_nonempty (rasterOcr : Option (List String))
    (p : PageRecord) (rest : List PageRecord)
    (h : get_text_from_pdf rasterOcr = p :: rest) : p.text ≠ "" := by
  have hall := get_text_text_nonempty rasterOcr
  rw [h] at hall
  have := List.all_eq_true.mp hall p (List.mem_cons_self p rest)
  simpa using this

-- ---------------------------------------------------------------------
-- Metadata extractor (rag_pipeline.py lines 89-129)
-- ---------------------------------------------------------------------

/-- A Python exception that escapes an embedded function. -/
inductive PyExc where
  | unboundLocal
deriving DecidableEq, Repr

/-- Oracle for the combined behaviour of the LLM call and the JSON
parse inside extract_metadata_from_text (rag_pipeline.py lines 103-117):
  raises     : Settings.llm.complete itself raises (API error, timeout);
  parseFail  : complete returns, but json.loads on the stripped output
               raises JSONDecodeError;
  nonMapping : json.loads returns a value that is not a dict, so line
               117 runs raise json.JSONDecodeError(msg) whose one-argument
               construction itself raises TypeError inside the try block;
  mapping d  : json.loads returns the dict d. -/
inductive LLMBehavior where
  | raises
  | parseFail
  | nonMapping
  | mapping (d : MDict)
deriving DecidableEq, Repr

/-- The fixed fallback record of rag_pipeline.py lines 124-129 (also the
record of lines 156-158). -/
def DEFAULT_METADATA : MDict :=
  [("doc_type", MVal.str "Unknown"), ("category", MVal.str "Unknown"),
   ("status", MVal.str "Unknown"), ("title", MVal.str "N/A")]

/-- _extract_metadata_from_text (rag_pipeline.py lines 89-129).  The
text parameter is truncated to its first 4000 characters and embedded in
the prompt (lines 96-100); the oracle abstracts what the LLM and JSON
parse do with that prompt.  Branch by branch against the source:
  mapping d  : isinstance(extracted_data, dict) holds, line 115 returns d;
  nonMapping : the raise on line 117 (which itself raises TypeError) is
               caught by except Exception on line 119; raw_output was
               assigned on line 104, so both prints succeed and line 124
               returns the default record;
  parseFail  : json.loads on line 110 raises, caught on line 119, same
               as above: the default record is returned;
  raises     : Settings.llm.complete on line 103 raises before
               raw_output is assigned; the handler on line 119 then
               evaluates the f-string of line 122, which reads the
               unassigned local raw_output and raises UnboundLocalError,
               which propagates out of the function. -/
def extract_metadata_from_text (text : String) (llmB : LLMBehavior) :
    Except PyExc MDict :=
  let truncated_text := text.take 4000
  match truncated_text, llmB with
  | _, LLMBehavior.raises => Except.error PyExc.unboundLocal
  | _, LLMBehavior.parseFail => Except.ok DEFAULT_METADATA
  | _, LLMBehavior.nonMapping => Except.ok DEFAULT_METADATA
  | _, LLMBehavior.mapping d => Except.ok d

-- ---------------------------------------------------------------------
-- Indexer (rag_pipeline.py lines 134-203)
-- ---------------------------------------------------------------------

/-- A llama_index Document as built on rag_pipeline.py lines 180-183:
page text plus the merged metadata dict. -/
structure IndexedDocument where
  text : String
  metadata : MDict
deriving DecidableEq, Repr

/-- The loop of rag_pipeline.py lines 168-184: for each page record,
copy the extracted metadata and then apply the per-page update of lines
175-178, binding file_name first and page_number second, each shadowing
any binding already present in the copy. -/
def build_documents (pages : List PageRecord) (extracted : MDict)
    (file_name : String) : List IndexedDocument :=
  pages.map (fun page_data =>
    { text := page_data.text
      metadata :=
        dinsert (dinsert extracted "file_name" (MVal.str file_name))
          "page_number" (MVal.nat page_data.page_number) })

/-- The observable outcome of one index_pdf call.
  outcome           : the returned pair (success flag, metadata), or the
                      exception that escaped;
  touchedStore      : whether the call reached the vector-store section
                      (rag_pipeline.py lines 186-203: get_vector_store
                      and the index write);
  written           : the documents handed to the store write;
  skippedExtraction : whether the branch of lines 154-158 ran (first
                      page empty, metadata extraction skipped with a
                      warning). -/
structure IndexRun where
  outcome : Except PyExc (Bool × Option MDict)
  touchedStore : Bool
  written : List IndexedDocument
  skippedExtraction : Bool
deriving Repr

/-- Step 4 of index_pdf (rag_pipeline.py lines 186-203): connect to the
store and write all documents inside a try block.  The oracle writeOk
states whether the whole write path (connection, storage context and
VectorStoreIndex.from_documents) succeeds; on success the function
returns (True, extracted_metadata), on any exception (False, None). -/
def indexWrite (pages : List PageRecord) (extracted : MDict)
    (file_name : String) (writeOk : Bool) (skipped : Bool) : IndexRun :=
  let documents := build_documents pages extracted file_name
  if writeOk then
    ⟨Except.ok (true, some extracted), true, documents, skipped⟩
  else
    ⟨Except.ok (false, none), true, documents, skipped⟩

/-- index_pdf (rag_pipeline.py lines 134-203), statement by statement:
run the OCR orchestrator (line 145); on an empty result return
(False, None) before any store interaction (lines 147-149); read the
first page text (line 153); if it is empty, use the fallback record
without calling the extractor (lines 154-158); otherwise call the
extractor (line 161), whose UnboundLocalError, if raised, propagates out
of index_pdf uncaught; then build the documents and run the write step. -/
def index_pdf (rasterOcr : Option (List String)) (llmB : LLMBehavior)
    (writeOk : Bool) (file_name : String) : IndexRun :=
  let page_data_list := get_text_from_pdf rasterOcr
  match page_data_list with
  | [] => ⟨Except.ok (false, none), false, [], false⟩
  | first :: rest =>
      let first_page_text := first.text
      if first_page_text = "" then
        indexWrite (first :: rest) DEFAULT_METADATA file_name writeOk true
      else
        match extract_metadata_from_text first_page_text llmB with
        | Except.error e => ⟨Except.error e, false, [], false⟩
        | Except.ok extracted_metadata =>
            indexWrite (first :: rest) extracted_metadata file_name writeOk false

/-- The dict that a non-raising extractor call returns: the parsed
mapping when the LLM produced one, the fallback record otherwise. -/
def extractOk : LLMBehavior → MDict
  | LLMBehavior.mapping d => d
  | _ => DEFAULT_METADATA

theorem extract_metadata_of_not_raises (text : String) (llmB : LLMBehavior)
    (h : llmB ≠ LLMBehavior.raises) :
    extract_metadata_from_text text llmB = Except.ok (extractOk llmB) := by
  cases llmB with
  | raises => exact absurd rfl h
  | parseFail => rfl
  | nonMapping => rfl
  | mapping d => rfl

-- ---------------------------------------------------------------------
-- Query engine (rag_pipeline.py lines 209-243, main.py lines 111-140)
-- ---------------------------------------------------------------------

/-- A node returned by retrieval: metadata, relevance score and text.
Scores are modelled as integers; only their order matters here. -/
structure RetrievedNode where
  metadata : MDict
  score : Int
  text : String
deriving DecidableEq, Repr

/-- Descending-score order used by the reranker. -/
def scoreGE (a b : RetrievedNode) : Prop := b.score ≤ a.score

instance : DecidableRel scoreGE :=
  fun a b => inferInstanceAs (Decidable (b.score ≤ a.score))

instance : IsTotal RetrievedNode scoreGE :=
  ⟨fun a b => le_total b.score a.score⟩

instance : IsTrans RetrievedNode scoreGE :=
  ⟨fun _ _ _ hab hbc => le_trans hbc hab⟩

/-- Modelled from the spec (section 4.6, Rerank step): the reranker used
in get_query_engine (rag_pipeline.py lines 221-224) is the library
component SentenceTransformerRerank with top_n = 3, whose code is not
part of this repository; per the spec it scores the candidates and keeps
the top-N by descending score.  The cross-encoder scores are carried by
the score field of the input nodes. -/
def rerank (top_n : Nat) (nodes : List RetrievedNode) : List RetrievedNode :=
  (List.insertionSort scoreGE nodes).take top_n

/-- The query path built by get_query_engine (rag_pipeline.py lines
226-240): the retriever produces the candidate list (the oracle input,
at most similarity_top_k = 10 nodes), the reranker keeps the top 3, and
the synthesizer produces the answer text from them (abstracted: the
answer string does not affect the source-node claims). -/
def query_engine_query (candidates : List RetrievedNode) : List RetrievedNode :=
  rerank 3 candidates

/-- A SourceNode of the response schema (schemas.py lines 16-20), with
the metadata values kept as MVal so that the defaulting of missing keys
is observable. -/
structure SourceNodeM where
  file_name : MVal
  page_number : MVal
  score : Int
  text_content : String
deriving DecidableEq, Repr

/-- The per-node response mapping shared verbatim by query_endpoint
(main.py lines 128-134) and chat_endpoint (main.py lines 185-191):
node.metadata.get with default Unknown for file_name and default 0 for
page_number. -/
def mkSourceNode (node : RetrievedNode) : SourceNodeM :=
  { file_name := (dlookup node.metadata "file_name").getD (MVal.str "Unknown")
    page_number := (dlookup node.metadata "page_number").getD (MVal.nat 0)
    score := node.score
    text_content := node.text }

/-- The response body of /query and /chat (schemas.py lines 22-24). -/
structure QueryResponseM where
  answer : String
  source_nodes : List SourceNodeM
deriving DecidableEq, Repr

/-- query_endpoint (main.py lines 111-140) on an available query
engine: run the engine on the question and map every returned node
through mkSourceNode.  The retriever candidates and the synthesized
answer string are oracle inputs. -/
def query_endpoint (candidates : List RetrievedNode) (answer : String) :
    QueryResponseM :=
  { answer := answer
    source_nodes := (query_engine_query candidates).map mkSourceNode }

-- ---------------------------------------------------------------------
-- Chat endpoint (main.py lines 31-34 and 143-197)
-- ---------------------------------------------------------------------

/-- One chat message: role and content. -/
structure ChatMsg where
  role : String
  content : String
deriving DecidableEq, Repr

/-- The process-wide chat_histories store (main.py line 34), viewed
through its lookup function; a session id with no entry reads as the
empty history, matching chat_histories.get(session_id, []). -/
def Histories : Type := String → List ChatMsg

/-- Outcome of one chat_engine.chat call (main.py line 176): either some
step (condensation, query or synthesis) raises, or it returns an answer
and source nodes. -/
inductive ChatOutcome where
  | fails
  | succeeds (answer : String) (nodes : List RetrievedNode)

/-- The observable outcome of one chat_endpoint call: the response (or
the single surfaced error), the chat_histories store afterwards, and
the session history that was fed into the condensation memory. -/
structure ChatRun where
  response : Except String QueryResponseM
  chat_histories : Histories
  condensation_history : List ChatMsg

/-- chat_endpoint (main.py lines 143-197) on an available query engine.
The oracle `engine` abstracts the library chat engine built on lines
160-172: given the session history placed into the memory buffer and
the question, it either raises or returns an answer with source nodes.
Modelled from the spec (section 4.7, steps 3-5) for the library part:
on success the memory holds the prior history plus the new turn (user
question, assistant answer), and line 179 commits exactly that list
under the session id; every step up to and including the chat call sits
inside the try block, so a failure surfaces one error (line 197) and
the store is left untouched. -/
def chat_endpoint (engine : List ChatMsg → String → ChatOutcome)
    (hists : Histories) (session_id question : String) : ChatRun :=
  let session_history := hists session_id
  match engine session_history question with
  | ChatOutcome.fails =>
      { response := Except.error "An error occurred during chat"
        chat_histories := hists
        condensation_history := session_history }
  | ChatOutcome.succeeds answer nodes =>
      let newHistory := session_history ++ [⟨"user", question⟩, ⟨"assistant", answer⟩]
      { response := Except.ok { answer := answer, source_nodes := nodes.map mkSourceNode }
        chat_histories := fun k => if k = session_id then newHistory else hists k
        condensation_history := session_history }

-- ---------------------------------------------------------------------
-- Claims
-- ---------------------------------------------------------------------

/-- C1: if rasterization yields page images and the OCR adapter returns
empty text for at least one page, then get_text_from_pdf returns the
empty list, and index_pdf returns (False, None) without touching the
vector store and without writing any document. -/
theorem C1_all_or_nothing (ts : List String) (llmB : LLMBehavior)
    (writeOk : Bool) (fn : String) (h : "" ∈ ts) :
    get_text_from_pdf (some ts) = [] ∧
    index_pdf (some ts) llmB writeOk fn =
      ⟨Except.ok (false, none), false, [], false⟩ := by
  have hlt := collectFrom_length_lt 1 ts h
  have hne : (collectFrom 1 ts).length ≠ ts.length := Nat.ne_of_lt hlt
  have hg : get_text_from_pdf (some ts) = [] := by
    simp [get_text_from_pdf, hne]
  exact ⟨hg, by simp [index_pdf, hg]⟩

/-- Witness for C1 on a 3-page document whose second page fails OCR. -/
theorem C1_all_or_nothing_witness :
    get_text_from_pdf (some ["page one", "", "page three"]) = [] ∧
    index_pdf (some ["page one", "", "page three"])
        LLMBehavior.raises true "doc.pdf" =
      ⟨Except.ok (false, none), false, [], false⟩ :=
  C1_all_or_nothing ["page one", "", "page three"]
    LLMBehavior.raises true "doc.pdf" (by decide)

/-- C2: evaluation of the metadata extractor over its failure modes.
When the LLM output fails to parse as JSON, or parses to a non-mapping,
the extractor returns the fixed default record.  But when the LLM call
itself raises, the except handler reads the unassigned local raw_output
and an UnboundLocalError escapes the function, so the extractor is not
total and does not return the default record in that failure case. -/
theorem C2_extractor_failure_modes :
    extract_metadata_from_text "hello" LLMBehavior.raises =
      Except.error PyExc.unboundLocal ∧
    extract_metadata_from_text "hello" LLMBehavior.parseFail =
      Except.ok DEFAULT_METADATA ∧
    extract_metadata_from_text "hello" LLMBehavior.nonMapping =
      Except.ok DEFAULT_METADATA :=
  ⟨rfl, rfl, rfl⟩

/-- C4: when OCR succeeds on every page, get_text_from_pdf returns
exactly one record per page image, numbered 1, 2, ..., N in order. -/
theorem C4_output_ordering (ts : List String) (h : ∀ t ∈ ts, t ≠ "") :
    get_text_from_pdf (some ts) = numberedPages ts ∧
    (numberedPages ts).length = ts.length := by
  have hc := collectFrom_all_nonempty 1 ts h
  have hlen : (collectFrom 1 ts).length = ts.length := by
    rw [hc]
    exact numberedFrom_length 1 ts
  constructor
  · simp [get_text_from_pdf, hc, numberedFrom_length, numberedPages]
  · exact numberedFrom_length 1 ts

/-- Witness for C4 on a 5-page fully successful document. -/
theorem C4_output_ordering_witness :
    get_text_from_pdf (some ["a1", "b2", "c3", "d4", "e5"]) =
      numberedPages ["a1", "b2", "c3", "d4", "e5"] ∧
    (numberedPages ["a1", "b2", "c3", "d4", "e5"]).length =
      (["a1", "b2", "c3", "d4", "e5"] : List String).length :=
  C4_output_ordering ["a1", "b2", "c3", "d4", "e5"] (by decide)

/-- C9: every record in the output of get_text_from_pdf has non-empty
text, and therefore the branch of index_pdf that substitutes the
fallback record because the first page text is empty never runs: the
skippedExtraction flag of every index_pdf run is false. -/
theorem C9_no_empty_page_fallback (rasterOcr : Option (List String))
    (llmB : LLMBehavior) (writeOk : Bool) (fn : String) :
    (get_text_from_pdf rasterOcr).all (fun r => decide (r.text ≠ "")) = true ∧
    (index_pdf rasterOcr llmB writeOk fn).skippedExtraction = false := by
  refine ⟨get_text_text_nonempty rasterOcr, ?_⟩
  cases hg : get_text_from_pdf rasterOcr with
  | nil => simp [index_pdf, hg]
  | cons p rest =>
      have hp : p.text ≠ "" := get_text_head_nonempty rasterOcr p rest hg
      cases llmB with
      | raises => simp [index_pdf, hg, hp, extract_metadata_from_text]
      | parseFail =>
          simp [index_pdf, hg, hp, extract_metadata_from_text, indexWrite]
          cases writeOk <;> simp
      | nonMapping =>
          simp [index_pdf, hg, hp, extract_metadata_from_text, indexWrite]
          cases writeOk <;> simp
      | mapping d =>
          simp [index_pdf, hg, hp, extract_metadata_from_text, indexWrite]
          cases writeOk <;> simp

/-- In every document built by the indexing loop, the per-page update
wins over the copied document metadata: file_name maps to the supplied
file name and page_number to the page number of the paired page record,
whatever the extracted metadata contained. -/
theorem build_documents_keys (pages : List PageRecord) (extracted : MDict)
    (fn : String) :
    ((build_documents pages extracted fn).zip pages).all
      (fun dp =>
        decide (dlookup dp.1.metadata "file_name" = some (MVal.str fn)) &&
        decide (dlookup dp.1.metadata "page_number" =
          some (MVal.nat dp.2.page_number))) = true := by
  induction pages with
  | nil => rfl
  | cons p ps ih =>
      simp only [build_documents, List.map_cons, List.zip_cons_cons,
        List.all_cons, Bool.and_eq_true]
      refine ⟨?_, ?_⟩
      · simp [dlookup, dinsert]
      · simpa only [build_documents] using ih

def runSucceeded (r : IndexRun) : Bool :=
  match r.outcome with
  | Except.ok (true, _) => true
  | _ => false

/-- Every successful index_pdf run wrote exactly the documents built
from its page records by the indexing loop, for some extracted
metadata record. -/
theorem index_pdf_written_shape (rasterOcr : Option (List String))
    (llmB : LLMBehavior) (writeOk : Bool) (fn : String)
    (h : runSucceeded (index_pdf rasterOcr llmB writeOk fn) = true) :
    ∃ meta, (index_pdf rasterOcr llmB writeOk fn).written =
      build_documents (get_text_from_pdf rasterOcr) meta fn := by
  cases hg : get_text_from_pdf rasterOcr with
  | nil =>
      refine ⟨DEFAULT_METADATA, ?_⟩
      simp [index_pdf, hg, build_documents]
  | cons p rest =>
      by_cases hp : p.text = ""
      · refine ⟨DEFAULT_METADATA, ?_⟩
        simp [index_pdf, hg, hp, indexWrite]
        cases writeOk <;> simp
      · cases hx : extract_metadata_from_text p.text llmB with
        | error e =>
            exfalso
            rw [runSucceeded] at h
            simp [index_pdf, hg, hp, hx] at h
        | ok meta =>
            refine ⟨meta, ?_⟩
            simp [index_pdf, hg, hp, hx, indexWrite]
            cases writeOk <;> simp

/-- C3: in every successful index_pdf run, every written document pairs
with its source page record so that its metadata maps file_name to the
supplied file name and page_number to the number of that page, regardless of
what keys the LLM-extracted metadata contained. -/
theorem C3_provenance_fields (rasterOcr : Option (List String))
    (llmB : LLMBehavior) (writeOk : Bool) (fn : String)
    (h : runSucceeded (index_pdf rasterOcr llmB writeOk fn) = true) :
    (index_pdf rasterOcr llmB writeOk fn).written.length =
      (get_text_from_pdf rasterOcr).length ∧
    ((index_pdf rasterOcr llmB writeOk fn).written.zip
        (get_text_from_pdf rasterOcr)).all
      (fun dp =>
        decide (dlookup dp.1.metadata "file_name" = some (MVal.str fn)) &&
        decide (dlookup dp.1.metadata "page_number" =
          some (MVal.nat dp.2.page_number))) = true := by
  obtain ⟨meta, hw⟩ := index_pdf_written_shape rasterOcr llmB writeOk fn h
  rw [hw]
  constructor
  · simp [build_documents]
  · exact build_documents_keys (get_text_from_pdf rasterOcr) meta fn

/-- Witness for C3: a 2-page document whose extracted metadata tries to
shadow both identity keys. -/
theorem C3_provenance_fields_witness :
    (index_pdf (some ["hello", "world"])
        (LLMBehavior.mapping
          [("file_name", MVal.str "evil"), ("page_number", MVal.nat 999),
           ("doc_type", MVal.str "Report")])
        true "r.pdf").written.length =
      (get_text_from_pdf (some ["hello", "world"])).length ∧
    ((index_pdf (some ["hello", "world"])
        (LLMBehavior.mapping
          [("file_name", MVal.str "evil"), ("page_number", MVal.nat 999),
           ("doc_type", MVal.str "Report")])
        true "r.pdf").written.zip
        (get_text_from_pdf (some ["hello", "world"]))).all
      (fun dp =>
        decide (dlookup dp.1.metadata "file_name" = some (MVal.str "r.pdf")) &&
        decide (dlookup dp.1.metadata "page_number" =
          some (MVal.nat dp.2.page_number))) = true :=
  C3_provenance_fields (some ["hello", "world"])
    (LLMBehavior.mapping
      [("file_name", MVal.str "evil"), ("page_number", MVal.nat 999),
       ("doc_type", MVal.str "Report")])
    true "r.pdf" (by decide)

/-- C5: in a run where OCR succeeded and the extractor call returns
(the LLM call does not raise), index_pdf reaches the write step and its
result is decided by the write: on success it returns (True, metadata)
with exactly the metadata attached to the written documents, on a write
exception it returns (False, None). -/
theorem C5_write_decides_outcome (rasterOcr : Option (List String))
    (llmB : LLMBehavior) (writeOk : Bool) (fn : String)
    (hocr : get_text_from_pdf rasterOcr ≠ [])
    (hllm : llmB ≠ LLMBehavior.raises) :
    index_pdf rasterOcr llmB writeOk fn =
      ⟨Except.ok (writeOk, if writeOk then some (extractOk llmB) else none),
       true,
       build_documents (get_text_from_pdf rasterOcr) (extractOk llmB) fn,
       false⟩ := by
  cases hg : get_text_from_pdf rasterOcr with
  | nil => exact absurd hg hocr
  | cons p rest =>
      have hp : p.text ≠ "" := get_text_head_nonempty rasterOcr p rest hg
      have hx := extract_metadata_of_not_raises p.text llmB hllm
      simp only [index_pdf, hg, if_neg hp, hx, indexWrite]
      cases writeOk <;> rfl

/-- Witness for C5: a 1-page document, a non-mapping LLM reply, and a
successful write. -/
theorem C5_write_decides_outcome_witness :
    index_pdf (some ["hi"]) LLMBehavior.nonMapping true "w.pdf" =
      ⟨Except.ok (true,
          if true then some (extractOk LLMBehavior.nonMapping) else none),
       true,
       build_documents (get_text_from_pdf (some ["hi"]))
         (extractOk LLMBehavior.nonMapping) "w.pdf",
       false⟩ :=
  C5_write_decides_outcome (some ["hi"]) LLMBehavior.nonMapping true "w.pdf"
    (by decide) (by decide)

/-- C6: the /query path returns at most 3 source nodes, and their
relevance scores are non-increasing from first to last. -/
theorem C6_top_n_bound (candidates : List RetrievedNode) (answer : String) :
    (query_endpoint candidates answer).source_nodes.length ≤ 3 ∧
    List.Sorted (fun a b : SourceNodeM => b.score ≤ a.score)
      (query_endpoint candidates answer).source_nodes := by
  constructor
  · simp only [query_endpoint, query_engine_query, rerank, List.length_map,
      List.length_take]
    exact min_le_left _ _
  · have hs : List.Sorted scoreGE (List.insertionSort scoreGE candidates) :=
      List.sorted_insertionSort scoreGE candidates
    have ht : List.Sorted scoreGE
        ((List.insertionSort scoreGE candidates).take 3) :=
      List.Pairwise.sublist (List.take_sublist 3 _) hs
    exact List.Pairwise.map mkSourceNode (fun a b hab => hab) ht

/-- C7: a chat turn commits the session history only after the chat
engine call completed; if any step of the turn raises, a single error
is surfaced and the history store is left exactly as it was. -/
theorem C7_history_committed_after_success
    (engine : List ChatMsg → String → ChatOutcome) (hists : Histories)
    (sid q a : String) (ns : List RetrievedNode) :
    (engine (hists sid) q = ChatOutcome.fails →
      (chat_endpoint engine hists sid q).response =
        Except.error "An error occurred during chat" ∧
      (chat_endpoint engine hists sid q).chat_histories = hists) ∧
    (engine (hists sid) q = ChatOutcome.succeeds a ns →
      (chat_endpoint engine hists sid q).response =
        Except.ok { answer := a, source_nodes := ns.map mkSourceNode } ∧
      (chat_endpoint engine hists sid q).chat_histories =
        fun k => if k = sid then
            hists sid ++ [⟨"user", q⟩, ⟨"assistant", a⟩]
          else hists k) := by
  constructor
  · intro h
    simp [chat_endpoint, h]
  · intro h
    simp [chat_endpoint, h]

/-- Witness for C7: a failing turn leaves the store untouched. -/
theorem C7_history_committed_after_success_witness :
    (chat_endpoint (fun _ _ => ChatOutcome.fails)
        (fun _ => []) "s1" "hello").response =
      Except.error "An error occurred during chat" ∧
    (chat_endpoint (fun _ _ => ChatOutcome.fails)
        (fun _ => []) "s1" "hello").chat_histories = fun _ => [] :=
  (C7_history_committed_after_success (fun _ _ => ChatOutcome.fails)
    (fun _ => []) "s1" "hello" "x" []).1 rfl

/-- C8: a chat call for one session reads only the history of that session
and leaves the entry of every other session unchanged, and a second call for
the same session feeds the history committed by the first call into its
condensation memory. -/
theorem C8_session_isolation
    (engine : List ChatMsg → String → ChatOutcome) (hists : Histories)
    (s1 s2 q1 q2 a : String) (ns : List RetrievedNode) (hne : s1 ≠ s2) :
    (chat_endpoint engine hists s1 q1).chat_histories s2 = hists s2 ∧
    (chat_endpoint engine hists s1 q1).condensation_history = hists s1 ∧
    (engine (hists s1) q1 = ChatOutcome.succeeds a ns →
      (chat_endpoint engine
          (chat_endpoint engine hists s1 q1).chat_histories
          s1 q2).condensation_history =
        hists s1 ++ [⟨"user", q1⟩, ⟨"assistant", a⟩]) := by
  have hread : ∀ (hs : Histories) (sid q : String),
      (chat_endpoint engine hs sid q).condensation_history = hs sid := by
    intro hs sid q
    cases h : engine (hs sid) q <;> simp [chat_endpoint, h]
  refine ⟨?_, hread hists s1 q1, ?_⟩
  · cases h : engine (hists s1) q1 with
    | fails => simp [chat_endpoint, h]
    | succeeds a2 ns2 =>
        simp only [chat_endpoint, h]
        exact if_neg (Ne.symm hne)
  · intro h
    rw [hread]
    simp [chat_endpoint, h]

/-- Witness for C8 with two distinct sessions and a successful turn. -/
theorem C8_session_isolation_witness :
    (chat_endpoint (fun _ _ => ChatOutcome.succeeds "ans" [])
        (fun _ => []) "s1" "q1").chat_histories "s2" = [] ∧
    (chat_endpoint (fun _ _ => ChatOutcome.succeeds "ans" [])
        (fun _ => []) "s1" "q1").condensation_history = [] ∧
    (chat_endpoint (fun _ _ => ChatOutcome.succeeds "ans" [])
        ((chat_endpoint (fun _ _ => ChatOutcome.succeeds "ans" [])
            (fun _ => []) "s1" "q1").chat_histories)
        "s1" "q2").condensation_history =
      [] ++ [⟨"user", "q1"⟩, ⟨"assistant", "ans"⟩] := by
  have h := C8_session_isolation (fun _ _ => ChatOutcome.succeeds "ans" [])
    (fun _ => []) "s1" "s2" "q1" "q2" "ans" [] (by decide)
  exact ⟨h.1, h.2.1, h.2.2 rfl⟩

/-- C10: the response mapping used by /query and /chat substitutes
Unknown for a missing file_name key and 0 for a missing page_number key
instead of failing. -/
theorem C10_missing_metadata_defaults (node : RetrievedNode) :
    (dlookup node.metadata "file_name" = none →
      (mkSourceNode node).file_name = MVal.str "Unknown") ∧
    (dlookup node.metadata "page_number" = none →
      (mkSourceNode node).page_number = MVal.nat 0) := by
  constructor <;> intro h <;> simp [mkSourceNode, h]

/-- Witness for C10: a node with empty metadata. -/
theorem C10_missing_metadata_defaults_witness :
    (mkSourceNode { metadata := [], score := 7, text := "t" }).file_name =
      MVal.str "Unknown" ∧
    (mkSourceNode { metadata := [], score := 7, text := "t" }).page_number =
      MVal.nat 0 :=
  ⟨(C10_missing_metadata_defaults
      { metadata := [], score := 7, text := "t" }).1 rfl,
   (C10_missing_metadata_defaults
      { metadata := [], score := 7, text := "t" }).2 rfl⟩
